import Mathlib

/-
Verification of the finance-app client core: period-cursor arithmetic
(changeMonth / changeDay in TransactionContext), the day/month derived
view of OverviewSection (window filtering and income/expense totals),
the add-transaction form validation (AddTransactionModal.handleSubmit),
and the transaction store operations (addTransaction, deleteTransaction,
and the onSnapshot subscription callback).

Dates are modelled at millisecond precision, exactly as JavaScript Date
values: a calendar triple (year, monthIndex 0-11, day) is mapped to a
day number by the proleptic Gregorian calendar (the semantics of the
JS Date constructor / MakeDay), and a full timestamp is the day number
times 86400000 plus the time-of-day in milliseconds (MakeDate).
Amounts are modelled as rationals.
-/

/-- Day number (days since 1970-01-01) of a civil Gregorian date.
Months are civil, 1..12; the formula is floor-division based and is
total over all integers, matching the normalization the JS Date
constructor applies to out-of-range day arguments. -/
def daysFromCivil (y m d : Int) : Int :=
  let y2 := y - (if m ≤ 2 then 1 else 0)
  let era := y2 / 400
  let yoe := y2 % 400
  let mp := (m + 9) % 12
  let doy := (153 * mp + 2) / 5 + d - 1
  let doe := yoe * 365 + yoe / 4 - yoe / 100 + doy
  era * 146097 + doe - 719468

/-- Day count shifted so that eras (400-year cycles of 146097 days) align. -/
def zOf (n : Int) : Int := n + 719468

/-- Era (400-year cycle) containing day number n. -/
def eraOf (n : Int) : Int := zOf n / 146097

/-- Day of era, in 0..146096. -/
def doeOf (n : Int) : Int := zOf n % 146097

/-- Century of era, in 0..3. -/
def centOf (n : Int) : Int :=
  if doeOf n / 36524 ≤ 3 then doeOf n / 36524 else 3

/-- Day of century. -/
def dcentOf (n : Int) : Int := doeOf n - 36524 * centOf n

/-- Quadrennium of century, in 0..24. -/
def quadOf (n : Int) : Int := dcentOf n / 1461

/-- Day of quadrennium. -/
def dquadOf (n : Int) : Int := dcentOf n - 1461 * quadOf n

/-- Year of quadrennium, in 0..3. -/
def yqOf (n : Int) : Int :=
  if dquadOf n / 365 ≤ 3 then dquadOf n / 365 else 3

/-- Day of the March-based year, in 0..365. -/
def doyOf (n : Int) : Int := dquadOf n - 365 * yqOf n

/-- Year of era, in 0..399. -/
def yoeOf (n : Int) : Int := 100 * centOf n + 4 * quadOf n + yqOf n

/-- March-based month (March = 0), in 0..11. -/
def mpOf (n : Int) : Int := (5 * doyOf n + 2) / 153

/-- Civil day of month of day number n. -/
def civilDay (n : Int) : Int := doyOf n - (153 * mpOf n + 2) / 5 + 1

/-- Civil month (1..12) of day number n. -/
def civilMonth (n : Int) : Int :=
  if mpOf n < 10 then mpOf n + 3 else mpOf n - 9

/-- Civil year of day number n. -/
def civilYear (n : Int) : Int :=
  yoeOf n + eraOf n * 400 + (if civilMonth n ≤ 2 then 1 else 0)

/-- Civil date of a day number: the inverse of daysFromCivil. -/
def civilFromDays (n : Int) : Int × Int × Int :=
  (civilYear n, civilMonth n, civilDay n)

/-- The cursor state (currentYear, currentMonth, currentDay) of
TransactionProvider. -/
structure Cursor where
  year : Int
  month : Int
  day : Int
deriving DecidableEq

/-- Day number of the JS expression new Date(year, month, day), months
0-based, with the month/day normalization of the Date constructor
(MakeDay). -/
def jsMakeDay (y m d : Int) : Int :=
  daysFromCivil (y + m / 12) (m % 12 + 1) d

/-- The cursor read back from a day number by getFullYear / getMonth /
getDate (getMonth is 0-based, hence the minus one). -/
def cursorOfDays (n : Int) : Cursor :=
  { year := civilYear n, month := civilMonth n - 1, day := civilDay n }

/-- changeDay of TransactionContext: builds new Date(currentYear,
currentMonth, currentDay), adds delta days via setDate, and reads the
year, month and day back into the cursor state. -/
def changeDay (c : Cursor) (delta : Int) : Cursor :=
  cursorOfDays (jsMakeDay c.year c.month c.day + delta)

/-- changeMonth of TransactionContext: adds delta to currentMonth, then
wraps once (below 0 becomes 11 with the year decremented; above 11
becomes 0 with the year incremented), and resets currentDay to 1. -/
def changeMonth (c : Cursor) (delta : Int) : Cursor :=
  let newMonth := c.month + delta
  if newMonth < 0 then { year := c.year - 1, month := 11, day := 1 }
  else if newMonth > 11 then { year := c.year + 1, month := 0, day := 1 }
  else { year := c.year, month := newMonth, day := 1 }

/-- A finite sequence of changeMonth calls, applied left to right. -/
def stepMonths (c : Cursor) (ds : List Int) : Cursor :=
  ds.foldl changeMonth c

/-
The Transaction data model and the derived view of OverviewSection.
-/

/-- A transaction as delivered by the subscription: document id, the
type string, the amount, and the date instant in milliseconds since the
epoch (the value of t.date.toDate().getTime()). -/
structure Transaction where
  id : String
  type : String
  amount : Rat
  date : Int
deriving DecidableEq

/-- Millisecond value of new Date(y, m, d, hh, mi, ss, ms): MakeDate of
MakeDay and MakeTime, months 0-based. -/
def jsDateValue (y m d hh mi ss ms : Int) : Int :=
  jsMakeDay y m d * 86400000 + hh * 3600000 + mi * 60000 + ss * 1000 + ms

/-- dayStart of the day view: new Date(year, month, day, 0, 0, 0). -/
def dayStart (c : Cursor) : Int := jsDateValue c.year c.month c.day 0 0 0 0

/-- dayEnd of the day view: new Date(year, month, day, 23, 59, 59, 999). -/
def dayEnd (c : Cursor) : Int := jsDateValue c.year c.month c.day 23 59 59 999

/-- monthStart of the month view: new Date(year, month, 1). -/
def monthStart (c : Cursor) : Int := jsDateValue c.year c.month 1 0 0 0 0

/-- monthEnd of the month view: new Date(year, month + 1, 0, 23, 59, 59);
note the constructor receives no milliseconds argument. -/
def monthEnd (c : Cursor) : Int := jsDateValue c.year (c.month + 1) 0 23 59 59 0

/-- The filteredTransactions of the day view of
components/OverviewSection.jsx: transactionDate at or after dayStart and
at or before dayEnd. -/
def dayFilteredTransactions (transactions : List Transaction) (c : Cursor) :
    List Transaction :=
  transactions.filter fun t => decide (dayStart c ≤ t.date ∧ t.date ≤ dayEnd c)

/-- The filteredTransactions of the month view of
context/OverviewSection.jsx: transactionDate at or after monthStart and
at or before monthEnd. -/
def monthFilteredTransactions (transactions : List Transaction) (c : Cursor) :
    List Transaction :=
  transactions.filter fun t => decide (monthStart c ≤ t.date ∧ t.date ≤ monthEnd c)

/-- The totals loop of OverviewSection: transactions of type income are
added to totalIncome, every other transaction is added to
totalExpenses. -/
def totalsOf (ts : List Transaction) : Rat × Rat :=
  ts.foldl
    (fun acc t =>
      if t.type = "income" then (acc.1 + t.amount, acc.2)
      else (acc.1, acc.2 + t.amount))
    (0, 0)

/-- totalIncome of OverviewSection. -/
def totalIncome (ts : List Transaction) : Rat := (totalsOf ts).1

/-- totalExpenses of OverviewSection. -/
def totalExpenses (ts : List Transaction) : Rat := (totalsOf ts).2

/-- balance of OverviewSection. -/
def balance (ts : List Transaction) : Rat := totalIncome ts - totalExpenses ts

/-
The Transaction Store of TransactionContext: the subscription callback
and the add and delete operations.
-/

/-- Sort key of the subscription callback: the comparator
(a, b) => b.date.toDate().getTime() - a.date.toDate().getTime()
keeps a before b when the date of b is at most the date of a. -/
def dateDesc (a b : Transaction) : Prop := b.date ≤ a.date

instance : DecidableRel dateDesc := fun a b => Int.decLe b.date a.date

instance : IsTotal Transaction dateDesc :=
  ⟨fun a b => le_total b.date a.date⟩

instance : IsTrans Transaction dateDesc :=
  ⟨fun _ _ _ h1 h2 => le_trans h2 h1⟩

/-- Body of the onSnapshot callback: collect the snapshot documents and
sort them by date in descending order; the result is what
setTransactions stores. -/
def processSnapshot (docs : List Transaction) : List Transaction :=
  List.insertionSort dateDesc docs

/-- Local TransactionProvider state touched by the store operations. -/
structure StoreState where
  transactions : List Transaction
  loading : Bool
deriving DecidableEq

/-- A remote Firestore call issued by a store operation. -/
inductive RemoteCall where
  | addDoc (t : Transaction)
  | deleteDoc (id : String)
deriving DecidableEq

/-- addTransaction of the part_001 TransactionContext, as the net effect
of one call: with no authenticated user it returns false at once and
touches nothing; otherwise it issues the addDoc call, the try/finally
leaves loading false, the local transactions list is never written, and
the returned Boolean is the success of the remote call. -/
def addTransaction (currentUser : Option String) (s : StoreState)
    (t : Transaction) (remoteOk : Bool) :
    StoreState × Bool × Option RemoteCall :=
  match currentUser with
  | none => (s, false, none)
  | some _ => ({ s with loading := false }, remoteOk, some (RemoteCall.addDoc t))

/-- deleteTransaction of the part_001 TransactionContext, same shape as
addTransaction; the deleteDoc call carries the requested id whether or
not any loaded transaction has that id. -/
def deleteTransaction (currentUser : Option String) (s : StoreState)
    (transactionId : String) (remoteOk : Bool) :
    StoreState × Bool × Option RemoteCall :=
  match currentUser with
  | none => (s, false, none)
  | some _ =>
      ({ s with loading := false }, remoteOk,
        some (RemoteCall.deleteDoc transactionId))

/-- addTransaction of the part_008 TransactionContext: its guard is a
bare return, so an unauthenticated caller observes undefined (modelled
as none) rather than false. -/
def addTransaction008 (currentUser : Option String) (s : StoreState)
    (t : Transaction) (remoteOk : Bool) :
    StoreState × Option Bool × Option RemoteCall :=
  match currentUser with
  | none => (s, none, none)
  | some _ =>
      ({ s with loading := false }, some remoteOk,
        some (RemoteCall.addDoc t))

/-
The add-transaction form of AddTransactionModal.
-/

/-- Outcome of one submit: a user-facing message with no store call, or
a call to addTransaction with the built transaction fields. -/
inductive SubmitAction where
  | rejected (message : String)
  | submitted (ty : String) (amount : Rat) (category : String) (date : String)
deriving DecidableEq

/-- handleSubmit of AddTransactionModal. The controlled inputs are
modelled as the browser exposes them: the value of the amount input of
type number is either empty (none) or a decimal numeral whose
parseFloat value is the carried rational; category and date are none
while their empty string value is unchosen. The source guard is
if (!amount || !category || !date || parseFloat(amount) <= 0). -/
def handleSubmit (ty : String) (amount : Option Rat) (category : Option String)
    (date : Option String) : SubmitAction :=
  match amount, category, date with
  | some a, some c, some d =>
      if a ≤ 0 then SubmitAction.rejected "Please fill all fields with valid values."
      else SubmitAction.submitted ty a c d
  | _, _, _ => SubmitAction.rejected "Please fill all fields with valid values."

/-
The subscription lifecycle of the part_008 TransactionProvider, as a
step relation over auth changes and snapshot deliveries.
-/

/-- Provider state together with the snapshot listeners that have been
registered and not unsubscribed; each onSnapshot call is given a fresh
identifier paired with the uid it is scoped to. -/
structure SubState where
  nextListener : Nat
  active : List (Nat × String)
  currentUser : Option String
  transactions : List Transaction
deriving DecidableEq

/-- External events driving the provider: an auth change re-running the
effect, or the data source delivering a snapshot to one registered
listener. -/
inductive SubEvent where
  | authChange (u : Option String)
  | snapshot (listener : Nat) (docs : List Transaction)

/-- One step of the part_008 TransactionProvider. On an auth change the
effect runs: with no user it subscribes to nothing; with a user it
registers a fresh listener. The effect never returns a cleanup (the
inner async function keeps the unsubscribe function to itself), so no
listener is ever removed. A snapshot delivered to a registered listener
sorts the documents by date descending and replaces the transaction
list. -/
def subStep008 (s : SubState) (e : SubEvent) : SubState :=
  match e with
  | SubEvent.authChange u =>
      match u with
      | none => { s with currentUser := none }
      | some uid =>
          { s with
              currentUser := some uid,
              active := (s.nextListener, uid) :: s.active,
              nextListener := s.nextListener + 1 }
  | SubEvent.snapshot listener docs =>
      if s.active.any fun p => p.1 == listener then
        { s with transactions := processSnapshot docs }
      else s

/-- A whole event trace, applied in order. -/
def runTrace008 (s : SubState) (es : List SubEvent) : SubState :=
  es.foldl subStep008 s

/-- The provider state at mount: no listener, no user, empty list. -/
def initialSubState : SubState :=
  { nextListener := 0, active := [], currentUser := none, transactions := [] }

theorem doeOf_bounds (n : Int) : 0 ≤ doeOf n ∧ doeOf n ≤ 146096 := by
  simp only [doeOf, zOf]
  omega

theorem layer_bounds (n : Int) :
    0 ≤ centOf n ∧ centOf n ≤ 3 ∧ 0 ≤ quadOf n ∧ quadOf n ≤ 24 ∧
    0 ≤ yqOf n ∧ yqOf n ≤ 3 ∧ 0 ≤ doyOf n ∧ doyOf n ≤ 365 ∧
    doeOf n = 36524 * centOf n + 1461 * quadOf n + 365 * yqOf n + doyOf n := by
  have h := doeOf_bounds n
  simp only [centOf, dcentOf, quadOf, dquadOf, yqOf, doyOf]
  split_ifs <;> omega

theorem yoeOf_bounds (n : Int) : 0 ≤ yoeOf n ∧ yoeOf n ≤ 399 := by
  have h := layer_bounds n
  simp only [yoeOf]
  omega

theorem g_reassemble (cent quad yq : Int)
    (hq0 : 0 ≤ quad) (hq1 : quad ≤ 24) (hy0 : 0 ≤ yq) (hy1 : yq ≤ 3) :
    (100 * cent + 4 * quad + yq) * 365 + (100 * cent + 4 * quad + yq) / 4
      - (100 * cent + 4 * quad + yq) / 100
      = 36524 * cent + 1461 * quad + 365 * yq := by
  omega

theorem month_facts (n : Int) :
    1 ≤ civilMonth n ∧ civilMonth n ≤ 12 ∧
    (civilMonth n + 9) % 12 = mpOf n ∧
    (153 * mpOf n + 2) / 5 + civilDay n - 1 = doyOf n ∧
    ((civilMonth n ≤ 2) ↔ 10 ≤ mpOf n) ∧
    1 ≤ civilDay n ∧ civilDay n ≤ 31 := by
  have h := layer_bounds n
  simp only [civilMonth, civilDay, mpOf]
  split_ifs <;> omega

theorem daysFromCivil_civilFromDays (n : Int) :
    daysFromCivil (civilYear n) (civilMonth n) (civilDay n) = n := by
  obtain ⟨hc0, hc1, hq0, hq1, hy0, hy1, hd0, hd1, hdecomp⟩ := layer_bounds n
  obtain ⟨hm1, hm2, hmp, hdoy, hm2iff, hd1', hd31⟩ := month_facts n
  have hyoe := yoeOf_bounds n
  have hY : civilYear n - (if civilMonth n ≤ 2 then 1 else 0)
      = yoeOf n + eraOf n * 400 := by
    simp only [civilYear]
    ring
  have hdiv : (yoeOf n + eraOf n * 400) / 400 = eraOf n := by omega
  have hmod : (yoeOf n + eraOf n * 400) % 400 = yoeOf n := by omega
  have hG := g_reassemble (centOf n) (quadOf n) (yqOf n) hq0 hq1 hy0 hy1
  have hED : eraOf n * 146097 + doeOf n = n + 719468 := by
    simp only [eraOf, doeOf, zOf]
    omega
  simp only [daysFromCivil]
  rw [hY, hdiv, hmod, hmp]
  simp only [yoeOf] at hG ⊢
  omega

theorem daysFromCivil_day_add (y m d k : Int) :
    daysFromCivil y m (d + k) = daysFromCivil y m d + k := by
  simp only [daysFromCivil]
  split_ifs <;> ring

/-
The Period Cursor: (currentYear, currentMonth 0-11, currentDay 1-31)
state of TransactionProvider, with months 0-based as in JS getMonth.
-/

theorem jsMakeDay_cursorOfDays (n : Int) :
    jsMakeDay (cursorOfDays n).year (cursorOfDays n).month (cursorOfDays n).day
      = n := by
  obtain ⟨hm1, hm2, _, _, _, _, _⟩ := month_facts n
  simp only [cursorOfDays, jsMakeDay]
  have h12 : (civilMonth n - 1) / 12 = 0 := by omega
  have h12' : (civilMonth n - 1) % 12 = civilMonth n - 1 := by omega
  rw [h12, h12']
  have hy : civilYear n + 0 = civilYear n := by ring
  have hm : civilMonth n - 1 + 1 = civilMonth n := by ring
  rw [hy, hm]
  exact daysFromCivil_civilFromDays n


theorem changeMonth_bounds (c : Cursor) (delta : Int) :
    0 ≤ (changeMonth c delta).month ∧ (changeMonth c delta).month ≤ 11 ∧
    (changeMonth c delta).day = 1 := by
  simp only [changeMonth]
  split_ifs with h1 h2
  · exact ⟨by norm_num, by norm_num, rfl⟩
  · exact ⟨by norm_num, by norm_num, rfl⟩
  · exact ⟨show 0 ≤ c.month + delta by omega,
      show c.month + delta ≤ 11 by omega, rfl⟩

theorem stepMonths_take_bounds (ds : List Int) :
    ∀ (c : Cursor) (i : Nat), i < ds.length →
      0 ≤ (stepMonths c (ds.take (i + 1))).month ∧
      (stepMonths c (ds.take (i + 1))).month ≤ 11 ∧
      (stepMonths c (ds.take (i + 1))).day = 1 := by
  induction ds with
  | nil =>
      intro c i hi
      simp at hi
  | cons d tl ih =>
      intro c i hi
      cases i with
      | zero => simpa [stepMonths] using changeMonth_bounds c d
      | succ j =>
          have hj : j < tl.length := by simpa using hi
          simpa [stepMonths] using ih (changeMonth c d) j hj

/-- C2: the claim predicts full normalization of month + delta into
0..11 with the year absorbing every wrap. The code wraps at most once:
from month 11, a step of +2 lands on month 0 of the next year, where
the normalized arithmetic of the claim demands month 1. -/
theorem C2_counterexample :
    changeMonth { year := 2025, month := 11, day := 1 } 2
      = { year := 2026, month := 0, day := 1 } ∧
    ({ year := 2026, month := 0, day := 1 } : Cursor)
      ≠ { year := 2026, month := (11 + 2) % 12, day := 1 } := by
  decide

/-- C2 (amended): for a cursor with month in 0..11 and a delta that
lands month + delta inside -1..12 (every single-step use in the UI),
changeMonth agrees with normalized month arithmetic - the new month is
(month + delta) mod 12 with the year adjusted by the carry - and the
day is reset to 1; outside that delta range the code clamps to a single
wrap instead. -/
theorem C2_changeMonth_single_wrap (c : Cursor) (delta : Int)
    (hm0 : 0 ≤ c.month) (hm1 : c.month ≤ 11)
    (hlo : -1 ≤ c.month + delta) (hhi : c.month + delta ≤ 12) :
    changeMonth c delta
      = { year := c.year + (c.month + delta) / 12,
          month := (c.month + delta) % 12, day := 1 } := by
  simp only [changeMonth]
  split_ifs with h1 h2 <;> simp only [Cursor.mk.injEq] <;>
    exact ⟨by omega, by omega, trivial⟩

/-- C2 witness: the first scenario of the claim, stepMonth(1) from
(2025, 0, 31), through the amended theorem. -/
theorem C2_witness :
    changeMonth { year := 2025, month := 0, day := 31 } 1
      = { year := 2025, month := 1, day := 1 } :=
  (C2_changeMonth_single_wrap { year := 2025, month := 0, day := 31 } 1
    (by decide) (by decide) (by decide) (by decide)).trans (by decide)

/-- C6: starting from a cursor with month in 0..11, after every call of
any finite changeMonth sequence the month is again in 0..11 and the day
equals 1. -/
theorem C6_stepMonths_invariant (c : Cursor) (ds : List Int) (i : Nat)
    (hm0 : 0 ≤ c.month) (hm1 : c.month ≤ 11) (hi : i < ds.length) :
    0 ≤ (stepMonths c (ds.take (i + 1))).month ∧
    (stepMonths c (ds.take (i + 1))).month ≤ 11 ∧
    (stepMonths c (ds.take (i + 1))).day = 1 :=
  stepMonths_take_bounds ds c i hi

/-- C6 witness: the sequence [1, -2] from (2025, 0, 15), observed after
its second call. -/
theorem C6_witness :
    0 ≤ (stepMonths { year := 2025, month := 0, day := 15 }
          ([1, -2].take (1 + 1))).month ∧
    (stepMonths { year := 2025, month := 0, day := 15 }
          ([1, -2].take (1 + 1))).month ≤ 11 ∧
    (stepMonths { year := 2025, month := 0, day := 15 }
          ([1, -2].take (1 + 1))).day = 1 :=
  C6_stepMonths_invariant { year := 2025, month := 0, day := 15 } [1, -2] 1
    (by decide) (by decide) (by decide)

/-- C7: two changeDay calls compose additively - stepping a days and
then b days equals stepping a + b days from the same cursor, for every
cursor and all integer deltas. -/
theorem C7_changeDay_add (c : Cursor) (a b : Int) :
    changeDay (changeDay c a) b = changeDay c (a + b) := by
  simp only [changeDay]
  rw [jsMakeDay_cursorOfDays]
  congr 1
  ring

/-- C8: neither addTransaction nor deleteTransaction writes the local
transactions list, whatever the authentication state and whatever the
remote outcome; in particular deleting an id absent from the list
leaves the list unchanged. The list changes only through the
subscription callback. -/
theorem C8_list_only_via_subscription (currentUser : Option String)
    (s : StoreState) (t : Transaction) (transactionId : String)
    (remoteOk : Bool) :
    (addTransaction currentUser s t remoteOk).1.transactions
        = s.transactions ∧
    (deleteTransaction currentUser s transactionId remoteOk).1.transactions
        = s.transactions := by
  cases currentUser <;> exact ⟨rfl, rfl⟩

/-- C9: with no resolved identity both operations return immediately
with a failure value, leave the whole local state untouched and issue
no remote call; the part_008 variant returns undefined (none), which
the callers success test also treats as failure. -/
theorem C9_unauthenticated_noop (s : StoreState) (t : Transaction)
    (transactionId : String) (remoteOk : Bool) :
    addTransaction none s t remoteOk = (s, false, none) ∧
    deleteTransaction none s transactionId remoteOk = (s, false, none) ∧
    addTransaction008 none s t remoteOk = (s, none, none) :=
  ⟨rfl, rfl, rfl⟩

theorem totalsOf_loop (ts : List Transaction) (acc : Rat × Rat) :
    ts.foldl
      (fun acc t =>
        if t.type = "income" then (acc.1 + t.amount, acc.2)
        else (acc.1, acc.2 + t.amount)) acc
      = (acc.1 + ((ts.filter fun t => decide (t.type = "income")).map
            Transaction.amount).sum,
         acc.2 + ((ts.filter fun t => decide (¬ t.type = "income")).map
            Transaction.amount).sum) := by
  induction ts generalizing acc with
  | nil => simp
  | cons h tl ih =>
      by_cases hty : h.type = "income" <;>
        simp [List.foldl_cons, hty, ih, add_assoc]

/-- C10: in the totals loop of the derived view, every transaction
whose type is not the exact string income - expense, unknown or
malformed alike - contributes its amount to totalExpenses, and the
balance subtracts the whole of totalExpenses from totalIncome. Here ts
stands for the filteredTransactions the loop runs over. -/
theorem C10_nonincome_counts_as_expense (ts : List Transaction) :
    totalExpenses ts
        = ((ts.filter fun t => decide (¬ t.type = "income")).map
            Transaction.amount).sum ∧
    totalIncome ts
        = ((ts.filter fun t => decide (t.type = "income")).map
            Transaction.amount).sum ∧
    balance ts = totalIncome ts - totalExpenses ts := by
  refine ⟨?_, ?_, rfl⟩ <;>
    simp [totalExpenses, totalIncome, totalsOf, totalsOf_loop]

/-- C5: a snapshot delivered to a registered listener replaces the
in-memory list with a permutation of the delivered documents sorted by
date in descending order, whatever order the data source used. -/
theorem C5_snapshot_sorted (s : SubState) (listener : Nat)
    (docs : List Transaction)
    (hactive : (s.active.any fun p => p.1 == listener) = true) :
    List.Sorted dateDesc
      (subStep008 s (SubEvent.snapshot listener docs)).transactions ∧
    (subStep008 s (SubEvent.snapshot listener docs)).transactions.Perm
      docs := by
  have h : (subStep008 s (SubEvent.snapshot listener docs)).transactions
      = processSnapshot docs := by
    simp only [subStep008, hactive, if_true]
  rw [h]
  exact ⟨List.sorted_insertionSort dateDesc docs,
    List.perm_insertionSort dateDesc docs⟩

/-- C5 witness: a two-document snapshot delivered out of order to the
single registered listener. -/
theorem C5_witness :
    List.Sorted dateDesc
      (subStep008
        { nextListener := 1, active := [(0, "A")], currentUser := some "A",
          transactions := [] }
        (SubEvent.snapshot 0
          [{ id := "x", type := "income", amount := 1, date := 1 },
           { id := "y", type := "expense", amount := 2, date := 2 }])).transactions ∧
    (subStep008
        { nextListener := 1, active := [(0, "A")], currentUser := some "A",
          transactions := [] }
        (SubEvent.snapshot 0
          [{ id := "x", type := "income", amount := 1, date := 1 },
           { id := "y", type := "expense", amount := 2, date := 2 }])).transactions.Perm
      [{ id := "x", type := "income", amount := 1, date := 1 },
       { id := "y", type := "expense", amount := 2, date := 2 }] :=
  C5_snapshot_sorted _ 0 _ (by decide)

/-- C3: whenever handleSubmit reaches addTransaction the submitted
amount is strictly positive, and every input with an empty or
non-positive amount, a missing category or a missing date is rejected
with a user-facing message and never reaches the store. -/
theorem C3_submit_validation (ty : String) (amount : Option Rat)
    (category : Option String) (date : Option String) :
    (∀ t a c d,
      handleSubmit ty amount category date = SubmitAction.submitted t a c d →
        0 < a) ∧
    ((amount = none ∨ (∃ q, amount = some q ∧ q ≤ 0) ∨ category = none ∨
        date = none) →
      ∃ message,
        handleSubmit ty amount category date
          = SubmitAction.rejected message) := by
  constructor
  · intro t a c d h
    rcases amount with _ | a0
    · simp [handleSubmit] at h
    rcases category with _ | c0
    · simp [handleSubmit] at h
    rcases date with _ | d0
    · simp [handleSubmit] at h
    simp only [handleSubmit] at h
    split_ifs at h with ha
    cases h
    exact not_le.mp ha
  · intro hbad
    rcases amount with _ | a0
    · exact ⟨"Please fill all fields with valid values.", by simp [handleSubmit]⟩
    rcases category with _ | c0
    · exact ⟨"Please fill all fields with valid values.", by simp [handleSubmit]⟩
    rcases date with _ | d0
    · exact ⟨"Please fill all fields with valid values.", by simp [handleSubmit]⟩
    rcases hbad with h | ⟨q, hq, hq0⟩ | h | h
    · exact absurd h (by simp)
    · obtain rfl : a0 = q := by injection hq
      refine ⟨"Please fill all fields with valid values.", ?_⟩
      simp only [handleSubmit]
      rw [if_pos hq0]
    · exact absurd h (by simp)
    · exact absurd h (by simp)

/-- C3 witness: a positive submission reaches the store with a positive
amount, and an empty amount is rejected with a message before any call. -/
theorem C3_witness :
    0 < (5 : Rat) ∧
    ∃ message,
      handleSubmit "income" none (some "Food") (some "2025-07-01")
        = SubmitAction.rejected message :=
  ⟨(C3_submit_validation "income" (some 5) (some "Salary")
      (some "2025-07-01")).1 "income" 5 "Salary" "2025-07-01" (by decide),
   (C3_submit_validation "income" none (some "Food") (some "2025-07-01")).2
      (Or.inl rfl)⟩

/-- C4: the part_008 effect never unsubscribes the previous listener,
so after user B's own snapshot has arrived (list of b1), a late
delivery to user A's still-registered listener overwrites the list with
A's data (a1) while the current user is still B - the claimed guarantee
fails on this trace. -/
theorem C4_stale_snapshot_overwrites :
    (runTrace008 initialSubState
        [SubEvent.authChange (some "A"),
         SubEvent.snapshot 0
           [{ id := "a1", type := "income", amount := 100, date := 0 }],
         SubEvent.authChange (some "B"),
         SubEvent.snapshot 1
           [{ id := "b1", type := "income", amount := 200, date := 0 }]]).transactions
      = [{ id := "b1", type := "income", amount := 200, date := 0 }] ∧
    (runTrace008 initialSubState
        [SubEvent.authChange (some "A"),
         SubEvent.snapshot 0
           [{ id := "a1", type := "income", amount := 100, date := 0 }],
         SubEvent.authChange (some "B"),
         SubEvent.snapshot 1
           [{ id := "b1", type := "income", amount := 200, date := 0 }],
         SubEvent.snapshot 0
           [{ id := "a1", type := "income", amount := 100, date := 0 }]]).transactions
      = [{ id := "a1", type := "income", amount := 100, date := 0 }] ∧
    (runTrace008 initialSubState
        [SubEvent.authChange (some "A"),
         SubEvent.snapshot 0
           [{ id := "a1", type := "income", amount := 100, date := 0 }],
         SubEvent.authChange (some "B"),
         SubEvent.snapshot 1
           [{ id := "b1", type := "income", amount := 200, date := 0 }],
         SubEvent.snapshot 0
           [{ id := "a1", type := "income", amount := 100, date := 0 }]]).currentUser
      = some "B" ∧
    ({ id := "a1", type := "income", amount := 100, date := 0 } : Transaction)
      ≠ { id := "b1", type := "income", amount := 200, date := 0 } := by
  refine ⟨?_, ?_, ?_, ?_⟩ <;> decide

theorem jsMakeDay_day_add (y m d k : Int) :
    jsMakeDay y m (d + k) = jsMakeDay y m d + k := by
  simp only [jsMakeDay]
  exact daysFromCivil_day_add (y + m / 12) (m % 12 + 1) d k

set_option maxHeartbeats 1000000 in
theorem jsMakeDay_first_le_last (y m : Int) :
    jsMakeDay y m 1 ≤ jsMakeDay y (m + 1) 0 := by
  simp only [jsMakeDay, daysFromCivil]
  have hr : m % 12 = 0 ∨ m % 12 = 1 ∨ m % 12 = 2 ∨ m % 12 = 3 ∨ m % 12 = 4 ∨
      m % 12 = 5 ∨ m % 12 = 6 ∨ m % 12 = 7 ∨ m % 12 = 8 ∨ m % 12 = 9 ∨
      m % 12 = 10 ∨ m % 12 = 11 := by omega
  rcases hr with h|h|h|h|h|h|h|h|h|h|h|h <;>
    · have h1 : (m + 1) % 12 = (m % 12 + 1) % 12 := by omega
      have h2 : (m + 1) / 12 = m / 12 + (m % 12 + 1) / 12 := by omega
      rw [h1, h2, h]
      norm_num
      first
        | done
        | (split_ifs <;> omega)
        | omega

/-- C1 (amended): both windows are inclusive at their actual bounds.
The day window ends at 23:59:59.999 of the cursor day: that instant is
kept and the next midnight is not. The month window, whose upper bound
is built without a milliseconds argument, ends at 23:59:59.000 of the
last day of the month: that instant is kept, while 23:59:59.999 of the
same last day - which the claim says is included - and the next
midnight are both excluded. -/
theorem C1_window_boundaries (transactions : List Transaction) (c : Cursor)
    (t : Transaction) :
    (t.date = jsDateValue c.year c.month c.day 23 59 59 999 →
      (t ∈ dayFilteredTransactions transactions c ↔ t ∈ transactions)) ∧
    (t.date = jsDateValue c.year c.month (c.day + 1) 0 0 0 0 →
      t ∉ dayFilteredTransactions transactions c) ∧
    (t.date = jsDateValue c.year (c.month + 1) 0 23 59 59 0 →
      (t ∈ monthFilteredTransactions transactions c ↔ t ∈ transactions)) ∧
    (t.date = jsDateValue c.year (c.month + 1) 0 23 59 59 999 →
      t ∉ monthFilteredTransactions transactions c) ∧
    (t.date = jsDateValue c.year (c.month + 1) 1 0 0 0 0 →
      t ∉ monthFilteredTransactions transactions c) := by
  have hday : jsMakeDay c.year c.month (c.day + 1)
      = jsMakeDay c.year c.month c.day + 1 :=
    jsMakeDay_day_add c.year c.month c.day 1
  have hmon : jsMakeDay c.year (c.month + 1) 1
      = jsMakeDay c.year (c.month + 1) 0 + 1 := by
    have h := jsMakeDay_day_add c.year (c.month + 1) 0 1
    norm_num at h
    exact h
  have hfl : jsMakeDay c.year c.month 1 ≤ jsMakeDay c.year (c.month + 1) 0 :=
    jsMakeDay_first_le_last c.year c.month
  refine ⟨fun ht => ?_, fun ht => ?_, fun ht => ?_, fun ht => ?_, fun ht => ?_⟩ <;>
    simp only [dayFilteredTransactions, monthFilteredTransactions,
      List.mem_filter, decide_eq_true_eq, dayStart, dayEnd, monthStart,
      monthEnd, jsDateValue, ht, hday, hmon]
  · exact ⟨fun h => h.1, fun h => ⟨h, by omega⟩⟩
  · rintro ⟨-, h1, h2⟩
    omega
  · exact ⟨fun h => h.1, fun h => ⟨h, by omega⟩⟩
  · rintro ⟨-, h1, h2⟩
    omega
  · rintro ⟨-, h1, h2⟩
    omega

/-- C1 counterexample: with the cursor in January 2025, the month
window ends at Jan 31 23:59:59.000 (new Date(2025, 1, 0, 23, 59, 59)
has no milliseconds argument), so a transaction dated exactly at
23:59:59.999 of the last day of the window is excluded from the month
view, where the claim requires it to be included. The second conjunct
records that day 0 of month 1 is indeed Jan 31, the last day of the
window. -/
theorem C1_counterexample :
    ({ id := "t1", type := "income", amount := 1,
       date := jsDateValue 2025 0 31 23 59 59 999 } : Transaction) ∉
      monthFilteredTransactions
        [{ id := "t1", type := "income", amount := 1,
           date := jsDateValue 2025 0 31 23 59 59 999 }]
        { year := 2025, month := 0, day := 15 } ∧
    cursorOfDays (jsMakeDay 2025 (0 + 1) 0)
      = { year := 2025, month := 0, day := 31 } := by
  refine ⟨?_, ?_⟩ <;> decide

/-- C1 witness: a transaction at 23:59:59.999 of July 1 2025 is kept by
the day window of that day. -/
theorem C1_witness :
    ({ id := "w1", type := "income", amount := 5,
       date := jsDateValue 2025 6 1 23 59 59 999 } : Transaction) ∈
      dayFilteredTransactions
        [{ id := "w1", type := "income", amount := 5,
           date := jsDateValue 2025 6 1 23 59 59 999 }]
        { year := 2025, month := 6, day := 1 } :=
  ((C1_window_boundaries _ _ _).1 rfl).mpr (by decide)
